import Mathlib

/-!
Verification of the two-token stable-swap pool engine
(`src/contracts/pool/src/methods/internal/pool.rs`).

Machine integers (`u128`) are embedded as `Nat`; every `u128` operation
performed by the state-transition methods is modelled by a checked
operation in the `Except Err` monad, where `Err.abort` stands for a Rust
panic (overflow past `2^128`, subtraction underflow, division by zero).
The `U256` intermediates of the curve solver are represented as unbounded
naturals.  External effects (token `transfer`/`mint`/`burn`, the claimable
balance map, storage) are out of scope per the specification and are not
modelled: the embedding returns the successor state and the method's
return values.
-/

set_option maxRecDepth 16000

namespace DexPool

/-- Modelled from the spec: `sqrt` from `shared::utils::num` (not under
`src/`): integer floor square root of a 256-bit unsigned value, with the
contract `result^2 ≤ x < (result+1)^2`.  Computed digit-by-digit; the
first argument is fuel, always sufficient when it is at least the input. -/
def sqrtAux : Nat → Nat → Nat
  | 0, _ => 0
  | fuel + 1, n =>
    if n = 0 then 0
    else
      let r := 2 * sqrtAux fuel (n / 4)
      if (r + 1) ^ 2 ≤ n then r + 1 else r

/-- Modelled from the spec: floor square root (see `sqrtAux`). -/
def sqrtN (n : Nat) : Nat := sqrtAux n n

/-- Modelled from the spec: `cbrt` from `shared::utils::num` (not under
`src/`): integer floor cube root, contract `result^3 ≤ x < (result+1)^3`. -/
def cbrtAux : Nat → Nat → Nat
  | 0, _ => 0
  | fuel + 1, n =>
    if n = 0 then 0
    else
      let r := 2 * cbrtAux fuel (n / 8)
      if (r + 1) ^ 3 ≤ n then r + 1 else r

/-- Modelled from the spec: floor cube root (see `cbrtAux`). -/
def cbrt (n : Nat) : Nat := cbrtAux n n

/-- One past the largest `u128` value; checked arithmetic reduces modulo
nothing, it fails (panics) at this bound. -/
def U128_MOD : Nat := 2 ^ 128

/-- `Pool::MAX_TOKEN_BALANCE = 2u128.pow(40)`. -/
def MAX_TOKEN_BALANCE : Nat := 2 ^ 40

/-- `Pool::BP = 10000` (basis points denominator). -/
def BP : Nat := 10000

/-- `Pool::P = 48` (reward accumulator fixed-point shift). -/
def P : Nat := 48

/-- Error outcomes of a pool method: the contract error codes of
`shared::Error` that `pool.rs` can raise, plus `abort`, which models a
Rust panic (checked-arithmetic overflow or underflow, division by zero,
or a failed `assert!`). -/
inductive Err where
  | abort
  | zeroAmount
  | poolOverflow
  | balanceRatioExceeded
  | zeroChanges
  | reservesExhausted
  | insufficientReceivedAmount
deriving DecidableEq

/-- Checked `u128` addition (`+` panics past `2^128 - 1`). -/
def chkAdd (x y : Nat) : Except Err Nat :=
  if x + y < U128_MOD then Except.ok (x + y) else Except.error Err.abort

/-- Checked `u128` subtraction (`-` panics on underflow). -/
def chkSub (x y : Nat) : Except Err Nat :=
  if y ≤ x then Except.ok (x - y) else Except.error Err.abort

/-- Checked `u128` multiplication (`*` panics past `2^128 - 1`). -/
def chkMul (x y : Nat) : Except Err Nat :=
  if x * y < U128_MOD then Except.ok (x * y) else Except.error Err.abort

/-- Checked `u128` division (`/` panics on a zero divisor). -/
def chkDiv (x y : Nat) : Except Err Nat :=
  if y = 0 then Except.error Err.abort else Except.ok (x / y)

/-- The `Pool` record (fields per spec §3 and their uses in `pool.rs`);
token addresses are external identities and are omitted. -/
structure Pool where
  a : Nat
  d : Nat
  token_a_balance : Nat
  token_b_balance : Nat
  reserves : Nat
  total_lp_amount : Nat
  acc_reward_per_share_p : Nat
  admin_fee_amount : Nat
  fee_share_bp : Nat
  admin_fee_share_bp : Nat
  balance_ratio_min_bp : Nat
  decimals_a : Nat
  decimals_b : Nat
  decimals_lp : Nat
deriving DecidableEq

/-- The `UserDeposit` record as used by `pool.rs`. -/
structure UserDeposit where
  lp_amount : Nat
  reward_debt : Nat
deriving DecidableEq

/-- `Direction` (pool.rs lines 16–19). -/
inductive Direction where
  | A2B
  | B2A
deriving DecidableEq

/-- `Tokens` tag (two-variant index into the pool's balances). -/
inductive Tokens where
  | TokenA
  | TokenB
deriving DecidableEq

/-- `Direction::to_tokens` (pool.rs lines 22–27). -/
def Direction.to_tokens : Direction → Tokens × Tokens
  | Direction.A2B => (Tokens.TokenA, Tokens.TokenB)
  | Direction.B2A => (Tokens.TokenB, Tokens.TokenA)

/-- Modelled from the spec: `Pool::get_token_balance` from
`storage/pool.rs` (not under `src/`): read the balance selected by the tag. -/
def Pool.get_token_balance (p : Pool) : Tokens → Nat
  | Tokens.TokenA => p.token_a_balance
  | Tokens.TokenB => p.token_b_balance

/-- Modelled from the spec: `Pool::set_token_balance` from
`storage/pool.rs` (not under `src/`): write the balance selected by the tag. -/
def Pool.set_token_balance (p : Pool) (amount : Nat) : Tokens → Pool
  | Tokens.TokenA => { p with token_a_balance := amount }
  | Tokens.TokenB => { p with token_b_balance := amount }

/-- `Pool::get_d` (pool.rs lines 290–309): closed-form stable-swap
invariant `D(x, y)`; `U256` intermediates are unbounded naturals. -/
def Pool.get_d (p : Pool) (x y : Nat) : Nat :=
  let xy := x * y
  let p1 := p.a * (x + y) * xy
  let p2 := xy * ((p.a <<< 2) - 1) / 3
  let p3 := sqrtN (p1 * p1 + p2 * p2 * p2)
  let d0 := cbrt (p1 + p3)
  let d := if p1 < p3 then d0 - cbrt (p3 - p1) else d0 + cbrt (p1 - p3)
  d <<< 1

/-- `Pool::get_y` (pool.rs lines 273–284): solve for the opposite balance
given the updated input-side balance.  `part1` is the signed `i128`
transient; the final `as u128` cast of the signed numerator is a cast
modulo `2^128`. -/
def Pool.get_y (p : Pool) (native_x : Nat) : Nat :=
  let a4 := p.a <<< 2
  let ddd := p.d * p.d * p.d
  let part1 : Int := (a4 : Int) * ((p.d : Int) - (native_x : Int)) - (p.d : Int)
  let part2 := (ddd * a4 + (part1 * part1).toNat * native_x) * native_x
  (((sqrtN part2 : Int) + (native_x : Int) * part1).emod (2 ^ 128)).toNat
    / ((p.a <<< 3) * native_x)

/-- `Pool::amount_to_system_precision` (pool.rs lines 311–317);
`SYSTEM_PRECISION = 3`. -/
def amount_to_system_precision (amount decimals : Nat) : Nat :=
  if 3 < decimals then amount / 10 ^ (decimals - 3)
  else if decimals < 3 then amount * 10 ^ (3 - decimals)
  else amount

/-- `Pool::amount_from_system_precision` (pool.rs lines 319–325). -/
def amount_from_system_precision (amount decimals : Nat) : Nat :=
  if 3 < decimals then amount * 10 ^ (decimals - 3)
  else if decimals < 3 then amount / 10 ^ (3 - decimals)
  else amount

/-- `Pool::validate_balance_ratio` (pool.rs lines 327–335): requires
`min * BP / max ≥ balance_ratio_min_bp`; the division has no zero guard,
so both balances being zero is a panic (`Err.abort`). -/
def Pool.validate_balance_ratio (p : Pool) : Except Err Unit := do
  let mn := min p.token_a_balance p.token_b_balance
  let mx := max p.token_a_balance p.token_b_balance
  let prod ← chkMul mn BP
  let q ← chkDiv prod mx
  if p.balance_ratio_min_bp ≤ q then Except.ok () else Except.error Err.balanceRatioExceeded

/-- The pending-reward computation shared by `deposit_lp` (pool.rs lines
147–151) and `withdraw_lp` (lines 164–168): zero when the user holds no
LP, otherwise the current snapshot minus the reward debt. -/
def pendingReward (p : Pool) (user : UserDeposit) : Except Err Nat :=
  if 0 < user.lp_amount then do
    let s ← chkMul user.lp_amount p.acc_reward_per_share_p
    chkSub (s >>> P) user.reward_debt
  else Except.ok 0

/-- `Pool::deposit_lp` (pool.rs lines 146–157): pay out pending rewards,
then add the minted LP amount to the pool total and the user, refreshing
the reward-debt snapshot. -/
def Pool.deposit_lp (p : Pool) (user : UserDeposit) (lp_amount : Nat) :
    Except Err (Pool × UserDeposit × Nat) := do
  let pending ← pendingReward p user
  let total ← chkAdd p.total_lp_amount lp_amount
  let ulp ← chkAdd user.lp_amount lp_amount
  let s2 ← chkMul ulp p.acc_reward_per_share_p
  Except.ok ({ p with total_lp_amount := total },
    { lp_amount := ulp, reward_debt := s2 >>> P }, pending)

/-- `Pool::withdraw_lp` (pool.rs lines 159–175): the `assert!` on the
user's balance is a panic; pending rewards computed as in `deposit_lp`,
then both totals are decremented and the snapshot refreshed. -/
def Pool.withdraw_lp (p : Pool) (user : UserDeposit) (lp_amount : Nat) :
    Except Err (Pool × UserDeposit × Nat) := do
  let user_lp_amount := user.lp_amount
  if user_lp_amount < lp_amount then Except.error Err.abort else do
  let pending ← pendingReward p user
  let total ← chkSub p.total_lp_amount lp_amount
  let ulp := user_lp_amount - lp_amount
  let s2 ← chkMul ulp p.acc_reward_per_share_p
  Except.ok ({ p with total_lp_amount := total },
    { lp_amount := ulp, reward_debt := s2 >>> P }, pending)

/-- The two balance-update branches of `Pool::deposit` (pool.rs lines
51–64): an equal split on the first deposit, a pro-rata split afterwards;
returns the two updated balances. -/
def depositAmounts (p : Pool) (old_d old_balance amount_sp : Nat) :
    Except Err (Nat × Nat) :=
  if old_d = 0 ∨ old_balance = 0 then
    let half_amount := amount_sp >>> 1
    Except.ok (half_amount, half_amount)
  else do
    let ma ← chkMul amount_sp p.token_a_balance
    let token_a_amount ← chkDiv ma old_balance
    let mb ← chkMul amount_sp p.token_b_balance
    let token_b_amount ← chkDiv mb old_balance
    let aB ← chkAdd p.token_a_balance token_a_amount
    let bB ← chkAdd p.token_b_balance token_b_amount
    Except.ok (aB, bB)

/-- `Pool::deposit` (pool.rs lines 37–93).  Token transfers and the LP
mint are external effects and omitted; the returned quadruple is the
post-state pool, the post-state user record, the claimed pending reward
and the minted LP amount. -/
def Pool.deposit (p : Pool) (amount_sp : Nat) (user : UserDeposit) :
    Except Err (Pool × UserDeposit × Nat × Nat) := do
  let old_d := p.d
  if amount_sp = 0 then Except.error Err.zeroAmount else do
  let reserves1 ← chkAdd p.reserves amount_sp
  let old_balance ← chkAdd p.token_a_balance p.token_b_balance
  let (aBal, bBal) ← depositAmounts p old_d old_balance amount_sp
  let p1 := { p with reserves := reserves1, token_a_balance := aBal, token_b_balance := bBal }
  let p2 := { p1 with d := p1.get_d aBal bBal }
  let newSum ← chkAdd p2.token_a_balance p2.token_b_balance
  if newSum < MAX_TOKEN_BALANCE then do
    p2.validate_balance_ratio
    let lp_amount ← chkSub p2.d old_d
    let (p3, user1, pending) ← p2.deposit_lp user lp_amount
    Except.ok (p3, user1, pending, lp_amount)
  else Except.error Err.poolOverflow

/-- `Pool::withdraw` (pool.rs lines 95–144).  Token transfers and the LP
burn are external effects and omitted. -/
def Pool.withdraw (p : Pool) (user : UserDeposit) (amount_lp : Nat) :
    Except Err (Pool × UserDeposit) := do
  let (p1, user1, _reward_amount) ← p.withdraw_lp user amount_lp
  let old_balance ← chkAdd p1.token_a_balance p1.token_b_balance
  let ma ← chkMul amount_lp p1.token_a_balance
  let token_a_amount ← chkDiv ma old_balance
  let mb ← chkMul amount_lp p1.token_b_balance
  let token_b_amount ← chkDiv mb old_balance
  let aB ← chkSub p1.token_a_balance token_a_amount
  let bB ← chkSub p1.token_b_balance token_b_amount
  let p2 := { p1 with token_a_balance := aB, token_b_balance := bB }
  let newSum ← chkAdd aB bB
  if newSum < old_balance then do
    if amount_lp ≤ p2.reserves then do
      let p3 := { p2 with reserves := p2.reserves - amount_lp }
      let old_d := p3.d
      let p4 := { p3 with d := p3.get_d aB bB }
      if p4.d < old_d then Except.ok (p4, user1)
      else Except.error Err.zeroChanges
    else Except.error Err.reservesExhausted
  else Except.error Err.zeroChanges

/-- `Pool::add_rewards` (pool.rs lines 264–271): split the fee between
the admin reserve and the per-share accumulator; a no-op when no LP
shares exist.  The `u128` left shift truncates modulo `2^128`. -/
def Pool.add_rewards (p : Pool) (reward_amount : Nat) : Except Err Pool := do
  if 0 < p.total_lp_amount then do
    let m ← chkMul reward_amount p.admin_fee_share_bp
    let admin_fee_rewards := m / BP
    let lp_rewards ← chkSub reward_amount admin_fee_rewards
    let inc := (lp_rewards <<< P) % U128_MOD / p.total_lp_amount
    let acc ← chkAdd p.acc_reward_per_share_p inc
    let adminAmt ← chkAdd p.admin_fee_amount admin_fee_rewards
    Except.ok { p with acc_reward_per_share_p := acc, admin_fee_amount := adminAmt }
  else Except.ok p

/-- `Pool::claim_rewards` (pool.rs lines 251–262): the pool itself is not
mutated; the snapshot is refreshed only when the pending amount is
positive. -/
def Pool.claim_rewards (p : Pool) (user : UserDeposit) :
    Except Err (UserDeposit × Nat) := do
  if 0 < user.lp_amount then do
    let s ← chkMul user.lp_amount p.acc_reward_per_share_p
    let rewards := s >>> P
    let pending ← chkSub rewards user.reward_debt
    if 0 < pending then Except.ok ({ user with reward_debt := rewards }, pending)
    else Except.ok (user, pending)
  else Except.ok (user, 0)

/-- `Pool::swap` (pool.rs lines 177–249).  The inbound/outbound token
transfers and the claimable-balance credit are external effects and
omitted; the returned triple is the post-state pool, `result` and `fee`. -/
def Pool.swap (p : Pool) (amount_in receive_amount_min : Nat) (zero_fee : Bool)
    (direction : Direction) : Except Err (Pool × Nat × Nat) := do
  let (token_from, token_to) := direction.to_tokens
  if amount_in = 0 then Except.ok (p, 0, 0) else do
  let fromBal ← chkAdd (p.get_token_balance token_from) amount_in
  let p1 := p.set_token_balance fromBal token_from
  let token_to_new_amount := p1.get_y (p1.get_token_balance token_from)
  let (result_sp, result0) ←
    if token_to_new_amount < p1.get_token_balance token_from then do
      let rsp ← chkSub (p1.get_token_balance token_to) token_to_new_amount
      Except.ok (rsp, amount_from_system_precision rsp p1.decimals_a)
    else Except.ok (0, 0)
  if result_sp ≤ p1.reserves then do
    let r1 ← chkAdd p1.reserves amount_in
    let r2 ← chkSub r1 result_sp
    let p2 := { p1 with reserves := r2 }
    let fee ←
      if zero_fee then Except.ok 0
      else do
        let m ← chkMul result0 p2.fee_share_bp
        Except.ok (m / BP)
    let result ← chkSub result0 fee
    let p3 := p2.set_token_balance token_to_new_amount token_to
    let p4 ← p3.add_rewards fee
    p4.validate_balance_ratio
    if receive_amount_min ≤ result then Except.ok (p4, result, fee)
    else Except.error Err.insufficientReceivedAmount
  else Except.error Err.reservesExhausted

deriving instance DecidableEq for Except

/-- The per-user reward-debt law maintained by the LP accounting: the
stored debt never exceeds the current snapshot
`lp_amount * acc_reward_per_share_p >> P`. -/
abbrev rewardInvariant (p : Pool) (u : UserDeposit) : Prop :=
  u.reward_debt ≤ (u.lp_amount * p.acc_reward_per_share_p) >>> P

/-- The pool of the repository's `check_d` unit test: `a = 20`. -/
def poolA20 : Pool :=
  { a := 20, d := 0, token_a_balance := 0, token_b_balance := 0, reserves := 0,
    total_lp_amount := 0, acc_reward_per_share_p := 0, admin_fee_amount := 0,
    fee_share_bp := 1, admin_fee_share_bp := 2000, balance_ratio_min_bp := 100,
    decimals_a := 7, decimals_b := 7, decimals_lp := 7 }

/-- A balanced consistent pool state whose two tokens have different
external decimals (`decimals_a = 7`, `decimals_b = 3`). -/
def poolMixedDecimals : Pool :=
  { a := 20, d := 200000, token_a_balance := 100000, token_b_balance := 100000,
    reserves := 200000, total_lp_amount := 200000, acc_reward_per_share_p := 0,
    admin_fee_amount := 0, fee_share_bp := 0, admin_fee_share_bp := 0,
    balance_ratio_min_bp := 0, decimals_a := 7, decimals_b := 3, decimals_lp := 7 }

/-- A large balanced consistent pool state:
`d = get_d(5·10^11, 5·10^11) = 10^12` and the balance sum is below
`MAX_TOKEN_BALANCE = 2^40 ≈ 1.0995·10^12`. -/
def poolLarge : Pool :=
  { a := 20, d := 1000000000000, token_a_balance := 500000000000,
    token_b_balance := 500000000000, reserves := 1000000000000,
    total_lp_amount := 1000000000000, acc_reward_per_share_p := 0,
    admin_fee_amount := 0, fee_share_bp := 0, admin_fee_share_bp := 0,
    balance_ratio_min_bp := 0, decimals_a := 3, decimals_b := 3, decimals_lp := 3 }

/-- A balanced consistent pool state at system precision
(`d = get_d(100000, 100000) = 200000`). -/
def poolBalanced : Pool :=
  { a := 20, d := 200000, token_a_balance := 100000, token_b_balance := 100000,
    reserves := 200000, total_lp_amount := 200000, acc_reward_per_share_p := 0,
    admin_fee_amount := 0, fee_share_bp := 0, admin_fee_share_bp := 0,
    balance_ratio_min_bp := 100, decimals_a := 3, decimals_b := 3, decimals_lp := 3 }

/-- The all-zero pool: the state before any deposit. -/
def poolEmpty : Pool :=
  { a := 20, d := 0, token_a_balance := 0, token_b_balance := 0, reserves := 0,
    total_lp_amount := 0, acc_reward_per_share_p := 0, admin_fee_amount := 0,
    fee_share_bp := 0, admin_fee_share_bp := 0, balance_ratio_min_bp := 0,
    decimals_a := 3, decimals_b := 3, decimals_lp := 3 }

/-- A fresh user record. -/
def userFresh : UserDeposit := { lp_amount := 0, reward_debt := 0 }

/-- A user holding the whole LP supply of `poolBalanced`. -/
def userWhole : UserDeposit := { lp_amount := 200000, reward_debt := 0 }

/-- A pool with LP supply `1000`, accumulator `3·2^48` and a 20% admin
fee share, for exercising the LP reward accounting. -/
def poolRewards : Pool :=
  { a := 20, d := 0, token_a_balance := 0, token_b_balance := 0, reserves := 0,
    total_lp_amount := 1000, acc_reward_per_share_p := 844424930131968,
    admin_fee_amount := 0, fee_share_bp := 0, admin_fee_share_bp := 2000,
    balance_ratio_min_bp := 0, decimals_a := 3, decimals_b := 3, decimals_lp := 3 }

/-- A user of `poolRewards`: snapshot `10 · 3·2^48 >> 48 = 30`, stored
debt `20`. -/
def userRewards : UserDeposit := { lp_amount := 10, reward_debt := 20 }

/-- `poolBalanced` with a 20% admin fee share and LP supply `100`. -/
def poolSmallLp : Pool :=
  { poolBalanced with total_lp_amount := 100, admin_fee_share_bp := 2000 }

/-- The outcome of `poolSmallLp.add_rewards 50`: admin cut
`50·2000/10000 = 10`, accumulator increase `(40 << 48)/100`. -/
def poolSmallLpAfter : Pool :=
  { poolSmallLp with
      admin_fee_amount := 10,
      acc_reward_per_share_p := 112589990684262 }

/-- The outcome of `poolRewards.add_rewards 100`: admin cut `20`,
accumulator increase `(80 << 48)/1000 = 22517998136852`. -/
def poolRewardsAfter : Pool :=
  { poolRewards with
      admin_fee_amount := 20,
      acc_reward_per_share_p := 866942928268820 }

/-- `poolBalanced` after a deposit of `2000`: pro-rata split adds `1000`
to each balance; `d = get_d(101000, 101000) = 202000`. -/
def poolBalancedAfterDeposit : Pool :=
  { poolBalanced with
      reserves := 202000,
      token_a_balance := 101000,
      token_b_balance := 101000,
      d := 202000,
      total_lp_amount := 202000 }

/-- The fresh user after the deposit of `2000` into `poolBalanced`. -/
def userAfterDeposit : UserDeposit := { lp_amount := 2000, reward_debt := 0 }

/-- `poolBalanced` after `userWhole` withdraws `100000`:
`d = get_d(50000, 50000) = 100000`. -/
def poolBalancedAfterWithdraw : Pool :=
  { poolBalanced with
      token_a_balance := 50000,
      token_b_balance := 50000,
      reserves := 100000,
      d := 100000,
      total_lp_amount := 100000 }

/-- `userWhole` after withdrawing `100000`. -/
def userAfterWithdraw : UserDeposit := { lp_amount := 100000, reward_debt := 0 }

/-- `poolRewards` after `userRewards` deposits `5` LP. -/
def poolRewardsDep : Pool := { poolRewards with total_lp_amount := 1005 }

/-- `userRewards` after depositing `5` LP: snapshot `15·3 = 45`. -/
def userRewardsDep : UserDeposit := { lp_amount := 15, reward_debt := 45 }

/-- `poolRewards` after `userRewards` withdraws `4` LP. -/
def poolRewardsWdr : Pool := { poolRewards with total_lp_amount := 996 }

/-- `userRewards` after withdrawing `4` LP: snapshot `6·3 = 18`. -/
def userRewardsWdr : UserDeposit := { lp_amount := 6, reward_debt := 18 }

/-- `userRewards` after claiming: debt refreshed to the snapshot `30`. -/
def userRewardsClaimed : UserDeposit := { lp_amount := 10, reward_debt := 30 }

/-! ## Helper lemmas -/

theorem bind_ok {α β : Type} {m : Except Err α} {f : α → Except Err β} {b : β}
    (h : (m >>= f) = Except.ok b) : ∃ a, m = Except.ok a ∧ f a = Except.ok b := by
  cases m with
  | ok a => exact ⟨a, rfl, h⟩
  | error e => simp [Bind.bind, Except.bind] at h

theorem ok_bind {α β : Type} (a : α) (f : α → Except Err β) :
    (Except.ok a : Except Err α) >>= f = f a := rfl

theorem err_bind {α β : Type} (e : Err) (f : α → Except Err β) :
    (Except.error e : Except Err α) >>= f = Except.error e := rfl

theorem chkAdd_ok {x y z : Nat} (h : chkAdd x y = Except.ok z) : z = x + y := by
  unfold chkAdd at h; split at h <;> simp_all

theorem chkSub_ok {x y z : Nat} (h : chkSub x y = Except.ok z) : z = x - y ∧ y ≤ x := by
  unfold chkSub at h; split at h <;> simp_all

theorem chkMul_ok {x y z : Nat} (h : chkMul x y = Except.ok z) : z = x * y := by
  unfold chkMul at h; split at h <;> simp_all

theorem chkDiv_ok {x y z : Nat} (h : chkDiv x y = Except.ok z) : z = x / y ∧ y ≠ 0 := by
  unfold chkDiv at h; split at h <;> simp_all

/-- `deposit_lp` only ever changes the pool's `total_lp_amount`, adding
the minted amount. -/
theorem deposit_lp_frame {p : Pool} {u : UserDeposit} {lp : Nat} {p' : Pool}
    {u' : UserDeposit} {pend : Nat}
    (h : p.deposit_lp u lp = Except.ok (p', u', pend)) :
    p' = { p with total_lp_amount := p.total_lp_amount + lp } := by
  unfold Pool.deposit_lp at h
  obtain ⟨pd, _hpd, h⟩ := bind_ok h
  obtain ⟨total, htot, h⟩ := bind_ok h
  obtain ⟨ulp, hulp, h⟩ := bind_ok h
  obtain ⟨s2, hs2, h⟩ := bind_ok h
  injection h with h
  obtain ⟨h1, h2⟩ := Prod.mk.injEq .. ▸ h
  have := chkAdd_ok htot
  subst this
  exact h1.symm

/-- `withdraw_lp` only ever changes the pool's `total_lp_amount`,
subtracting the burnt amount, which its success bounds by the total. -/
theorem withdraw_lp_frame {p : Pool} {u : UserDeposit} {lp : Nat} {p' : Pool}
    {u' : UserDeposit} {pend : Nat}
    (h : p.withdraw_lp u lp = Except.ok (p', u', pend)) :
    p' = { p with total_lp_amount := p.total_lp_amount - lp } ∧
      lp ≤ p.total_lp_amount := by
  unfold Pool.withdraw_lp at h
  dsimp only at h
  split at h
  · injection h
  obtain ⟨pd, _hpd, h⟩ := bind_ok h
  obtain ⟨total, htot, h⟩ := bind_ok h
  obtain ⟨s2, hs2, h⟩ := bind_ok h
  injection h with h
  obtain ⟨h1, h2⟩ := Prod.mk.injEq .. ▸ h
  obtain ⟨htv, hle⟩ := chkSub_ok htot
  subst htv
  exact ⟨h1.symm, hle⟩

/-- Every successful `deposit` adds the deposited amount to `reserves`,
never decreases `d`, and leaves the balance sum under the ceiling. -/
theorem deposit_ok_spec (p : Pool) (amount_sp : Nat) (u : UserDeposit)
    (p' : Pool) (u' : UserDeposit) (pend lp : Nat)
    (h : p.deposit amount_sp u = Except.ok (p', u', pend, lp)) :
    p'.reserves = p.reserves + amount_sp ∧ p.d ≤ p'.d ∧
      p'.token_a_balance + p'.token_b_balance < MAX_TOKEN_BALANCE := by
  unfold Pool.deposit at h
  split at h
  · injection h
  obtain ⟨reserves1, hres, h⟩ := bind_ok h
  obtain ⟨old_balance, hob, h⟩ := bind_ok h
  obtain ⟨⟨aBal, bBal⟩, hab, h⟩ := bind_ok h
  obtain ⟨newSum, hns, h⟩ := bind_ok h
  split at h
  case isTrue hlt =>
    obtain ⟨uu, hval, h⟩ := bind_ok h
    obtain ⟨lp1, hlp, h⟩ := bind_ok h
    obtain ⟨⟨p3, user1, pending⟩, hdlp, h⟩ := bind_ok h
    injection h with h
    obtain ⟨hp, hrest⟩ := Prod.mk.injEq .. ▸ h
    subst hp
    have hframe := deposit_lp_frame hdlp
    subst hframe
    have hres' := chkAdd_ok hres
    have hns' := chkAdd_ok hns
    obtain ⟨hlp1, hlple⟩ := chkSub_ok hlp
    refine ⟨by simpa using hres', by simpa using hlple, ?_⟩
    simpa [← hns'] using hlt
  case isFalse => injection h

/-- Every successful `withdraw` strictly decreases `d`, removes the burnt
LP amount from `total_lp_amount` and `reserves`, and strictly decreases
the balance sum. -/
theorem withdraw_ok_spec (p : Pool) (u : UserDeposit) (amount_lp : Nat)
    (p' : Pool) (u' : UserDeposit)
    (h : p.withdraw u amount_lp = Except.ok (p', u')) :
    p'.d < p.d ∧ p'.total_lp_amount + amount_lp = p.total_lp_amount ∧
      p'.reserves + amount_lp = p.reserves ∧
      p'.token_a_balance + p'.token_b_balance <
        p.token_a_balance + p.token_b_balance := by
  unfold Pool.withdraw at h
  obtain ⟨⟨p1, user1, reward⟩, hwlp, h⟩ := bind_ok h
  obtain ⟨old_balance, hob, h⟩ := bind_ok h
  obtain ⟨ma, hma, h⟩ := bind_ok h
  obtain ⟨ta, hta, h⟩ := bind_ok h
  obtain ⟨mb, hmb, h⟩ := bind_ok h
  obtain ⟨tb, htb, h⟩ := bind_ok h
  obtain ⟨aB, haB, h⟩ := bind_ok h
  obtain ⟨bB, hbB, h⟩ := bind_ok h
  obtain ⟨newSum, hns, h⟩ := bind_ok h
  dsimp only at h
  split at h
  case isFalse => injection h
  case isTrue hdec =>
  split at h
  case isFalse => injection h
  case isTrue hresv =>
  split at h
  case isFalse => injection h
  case isTrue hd =>
  injection h with h
  obtain ⟨hp, hu⟩ := Prod.mk.injEq .. ▸ h
  subst hp
  obtain ⟨hframe, hlptot⟩ := withdraw_lp_frame hwlp
  subst hframe
  have hob' := chkAdd_ok hob
  have hns' := chkAdd_ok hns
  refine ⟨by simpa using hd, ?_, ?_, ?_⟩
  · simp only []
    omega
  · simp only [] at hresv ⊢
    omega
  · simp only [] at hns' hob' hdec ⊢
    omega

/-- Under the reward-debt law, `deposit_lp` succeeds whenever its `u128`
products and sums fit, returning exactly the updated records and the
pending reward; in particular the pending subtraction cannot underflow. -/
theorem deposit_lp_char (p : Pool) (u : UserDeposit) (lp : Nat)
    (hinv : rewardInvariant p u)
    (h1 : u.lp_amount * p.acc_reward_per_share_p < U128_MOD)
    (h2 : p.total_lp_amount + lp < U128_MOD)
    (h3 : u.lp_amount + lp < U128_MOD)
    (h4 : (u.lp_amount + lp) * p.acc_reward_per_share_p < U128_MOD) :
    p.deposit_lp u lp = Except.ok
      ({ p with total_lp_amount := p.total_lp_amount + lp },
       { lp_amount := u.lp_amount + lp,
         reward_debt := ((u.lp_amount + lp) * p.acc_reward_per_share_p) >>> P },
       (u.lp_amount * p.acc_reward_per_share_p) >>> P - u.reward_debt) := by
  unfold rewardInvariant at hinv
  rcases Nat.eq_zero_or_pos u.lp_amount with h0 | hpos
  · have hd0 : u.reward_debt = 0 := by
      simpa [h0] using hinv
    have h3' : lp < U128_MOD := by simpa [h0] using h3
    have h4' : lp * p.acc_reward_per_share_p < U128_MOD := by
      simpa [h0] using h4
    simp [Pool.deposit_lp, pendingReward, chkMul, chkSub, chkAdd, h0, hd0,
      h2, h3', h4', ok_bind, Except.ok.injEq, Pool.mk.injEq, UserDeposit.mk.injEq,
      Prod.mk.injEq]
  · simp [Pool.deposit_lp, pendingReward, chkMul, chkSub, chkAdd, hpos,
      h1, h2, h3, h4, hinv, ok_bind, Except.ok.injEq, Pool.mk.injEq,
      UserDeposit.mk.injEq, Prod.mk.injEq]

/-- Under the reward-debt law, `withdraw_lp` succeeds whenever the user
and pool hold enough LP and the products fit, returning exactly the
updated records and the pending reward. -/
theorem withdraw_lp_char (p : Pool) (u : UserDeposit) (lp : Nat)
    (hinv : rewardInvariant p u)
    (hle : lp ≤ u.lp_amount)
    (htot : lp ≤ p.total_lp_amount)
    (h1 : u.lp_amount * p.acc_reward_per_share_p < U128_MOD) :
    p.withdraw_lp u lp = Except.ok
      ({ p with total_lp_amount := p.total_lp_amount - lp },
       { lp_amount := u.lp_amount - lp,
         reward_debt := ((u.lp_amount - lp) * p.acc_reward_per_share_p) >>> P },
       (u.lp_amount * p.acc_reward_per_share_p) >>> P - u.reward_debt) := by
  unfold rewardInvariant at hinv
  have h2 : (u.lp_amount - lp) * p.acc_reward_per_share_p < U128_MOD :=
    lt_of_le_of_lt (Nat.mul_le_mul_right _ (Nat.sub_le _ _)) h1
  rcases Nat.eq_zero_or_pos u.lp_amount with h0 | hpos
  · have hlp0 : lp = 0 := by omega
    have hd0 : u.reward_debt = 0 := by simpa [h0] using hinv
    have hU : 0 < U128_MOD := by decide
    simp [Pool.withdraw_lp, pendingReward, chkMul, chkSub, h0, hlp0, hd0, h2, hU,
      ok_bind, Except.ok.injEq, Pool.mk.injEq, UserDeposit.mk.injEq, Prod.mk.injEq]
  · simp [Pool.withdraw_lp, pendingReward, chkMul, chkSub, hpos, hle, htot,
      h1, h2, hinv, ok_bind, Nat.not_lt.mpr hle, Except.ok.injEq, Pool.mk.injEq,
      UserDeposit.mk.injEq, Prod.mk.injEq]

/-- Under the reward-debt law, `claim_rewards` succeeds whenever the
product fits, paying out exactly the snapshot minus the stored debt. -/
theorem claim_rewards_char (p : Pool) (u : UserDeposit)
    (hinv : rewardInvariant p u)
    (h1 : u.lp_amount * p.acc_reward_per_share_p < U128_MOD) :
    p.claim_rewards u = Except.ok
      (if 0 < (u.lp_amount * p.acc_reward_per_share_p) >>> P - u.reward_debt
        then { lp_amount := u.lp_amount,
               reward_debt := (u.lp_amount * p.acc_reward_per_share_p) >>> P }
        else u,
       (u.lp_amount * p.acc_reward_per_share_p) >>> P - u.reward_debt) := by
  unfold rewardInvariant at hinv
  rcases Nat.eq_zero_or_pos u.lp_amount with h0 | hpos
  · have hd0 : u.reward_debt = 0 := by simpa [h0] using hinv
    simp [Pool.claim_rewards, h0, hd0]
  · simp [Pool.claim_rewards, chkMul, chkSub, hpos, h1, hinv, ok_bind,
      Except.ok.injEq, Prod.mk.injEq]
    split <;> simp_all [UserDeposit.mk.injEq]

/-- A successful `add_rewards` never decreases the accumulator and never
changes the LP total. -/
theorem add_rewards_frame (p : Pool) (r : Nat) (p' : Pool)
    (h : p.add_rewards r = Except.ok p') :
    p.acc_reward_per_share_p ≤ p'.acc_reward_per_share_p ∧
      p'.total_lp_amount = p.total_lp_amount := by
  unfold Pool.add_rewards at h
  split at h
  · obtain ⟨m, hm, h⟩ := bind_ok h
    dsimp only at h
    obtain ⟨lpr, hlpr, h⟩ := bind_ok h
    obtain ⟨acc, hacc, h⟩ := bind_ok h
    obtain ⟨adm, hadm, h⟩ := bind_ok h
    injection h with h
    subst h
    have := chkAdd_ok hacc
    simp_all
  · injection h with h
    subst h
    simp

/-- The reward snapshot is monotone in the accumulator. -/
theorem snapshot_mono {lp acc acc₂ : Nat} (h : acc ≤ acc₂) :
    (lp * acc) >>> P ≤ (lp * acc₂) >>> P := by
  simp only [Nat.shiftRight_eq_div_pow]
  exact Nat.div_le_div_right (Nat.mul_le_mul (le_refl lp) h)

/-! ## Claim theorems -/

/-- C1: `swap` converts the output `result_sp` with `decimals_a`
regardless of direction (pool.rs line 209).  At the concrete state
`poolMixedDecimals` (`decimals_a = 7`, `decimals_b = 3`) an A2B swap of
`1000` computes `result_sp = 1000` and returns `result = 10000000`, the
`decimals_a` conversion; the conversion with the output token's
`decimals_b`, which the claim requires, yields `1000`. -/
theorem swap_result_uses_decimals_a :
    poolMixedDecimals.swap 1000 0 true Direction.A2B =
      Except.ok
        ({ poolMixedDecimals with
            token_a_balance := 101000,
            token_b_balance := 99000 },
          10000000, 0) ∧
    amount_from_system_precision 1000 poolMixedDecimals.decimals_a = 10000000 ∧
    amount_from_system_precision 1000 poolMixedDecimals.decimals_b = 1000 :=
  ⟨by decide, by decide, by decide⟩

/-- C2 (counterexample): from the pre-state `poolLarge`, whose balance
sum `10^12` is below `2^40`, an A2B swap of `6·10^11` succeeds and leaves
the balance sum at `1121241751760 ≥ 2^40`: `swap` never checks
`MAX_TOKEN_BALANCE`, so the overflow guard is not an invariant of every
successful operation. -/
theorem swap_can_break_overflow_guard :
    poolLarge.token_a_balance + poolLarge.token_b_balance < MAX_TOKEN_BALANCE ∧
    poolLarge.swap 600000000000 0 true Direction.A2B =
      Except.ok
        ({ poolLarge with
            token_a_balance := 1100000000000,
            token_b_balance := 21241751760,
            reserves := 1121241751760 },
          478758248240, 0) ∧
    MAX_TOKEN_BALANCE ≤ 1100000000000 + 21241751760 :=
  ⟨by decide, by decide, by decide⟩

/-- C2 (amended): `deposit` enforces the overflow guard — after every
successful deposit `token_a_balance + token_b_balance < 2^40` — and
`withdraw` preserves it, because it strictly decreases the balance sum;
`swap` performs no such check and can violate the bound. -/
theorem deposit_withdraw_respect_overflow_guard :
    (∀ (p : Pool) (amt : Nat) (u : UserDeposit) (p' : Pool) (u' : UserDeposit)
        (pend lp : Nat),
      p.deposit amt u = Except.ok (p', u', pend, lp) →
      p'.token_a_balance + p'.token_b_balance < MAX_TOKEN_BALANCE) ∧
    (∀ (p : Pool) (amt : Nat) (u : UserDeposit) (p' : Pool) (u' : UserDeposit),
      p.token_a_balance + p.token_b_balance < MAX_TOKEN_BALANCE →
      p.withdraw u amt = Except.ok (p', u') →
      p'.token_a_balance + p'.token_b_balance < MAX_TOKEN_BALANCE) := by
  constructor
  · intro p amt u p' u' pend lp h
    exact (deposit_ok_spec p amt u p' u' pend lp h).2.2
  · intro p amt u p' u' hpre h
    have hlt := (withdraw_ok_spec p u amt p' u' h).2.2.2
    omega

/-- Witness for the amended C2 theorem at a successful concrete deposit
and a successful concrete withdraw. -/
theorem deposit_withdraw_respect_overflow_guard_witness :
    poolBalancedAfterDeposit.token_a_balance +
        poolBalancedAfterDeposit.token_b_balance < MAX_TOKEN_BALANCE ∧
    poolBalancedAfterWithdraw.token_a_balance +
        poolBalancedAfterWithdraw.token_b_balance < MAX_TOKEN_BALANCE :=
  ⟨deposit_withdraw_respect_overflow_guard.1 poolBalanced 2000 userFresh
      poolBalancedAfterDeposit userAfterDeposit 0 2000 (by decide),
    deposit_withdraw_respect_overflow_guard.2 poolBalanced 100000 userWhole
      poolBalancedAfterWithdraw userAfterWithdraw (by decide) (by decide)⟩

/-- C3 (counterexample): a deposit of `1` into the balanced pool returns
`Ok` — the pro-rata amounts `1·100000/200000` floor to `0`, the balances
and `d` are unchanged, `lp_minted = 0` — so `d` does not strictly
increase even though `amount_sp > 0`. -/
theorem deposit_d_can_stay_equal :
    poolBalanced.deposit 1 userFresh =
      Except.ok ({ poolBalanced with reserves := 200001 }, userFresh, 0, 0) ∧
    ({ poolBalanced with reserves := 200001 } : Pool).d = poolBalanced.d :=
  ⟨by decide, by decide⟩

/-- C3 (amended): every successful `deposit(amount_sp)` with
`amount_sp > 0` increases `reserves` by exactly `amount_sp`, and `d`
never decreases (the minted amount is the checked difference
`d_new - d_old`); `d` need not strictly increase, since the pro-rata
split can floor both added amounts to zero. -/
theorem deposit_increases_reserves_d_nondecreasing :
    ∀ (p : Pool) (amount_sp : Nat) (u : UserDeposit) (p' : Pool)
      (u' : UserDeposit) (pend lp : Nat),
      0 < amount_sp →
      p.deposit amount_sp u = Except.ok (p', u', pend, lp) →
      p'.reserves = p.reserves + amount_sp ∧ p.d ≤ p'.d := by
  intro p amount_sp u p' u' pend lp _ h
  obtain ⟨h1, h2, _⟩ := deposit_ok_spec p amount_sp u p' u' pend lp h
  exact ⟨h1, h2⟩

/-- Witness for the amended C3 theorem at a successful concrete deposit. -/
theorem deposit_increases_reserves_d_nondecreasing_witness :
    poolBalancedAfterDeposit.reserves = poolBalanced.reserves + 2000 ∧
      poolBalanced.d ≤ poolBalancedAfterDeposit.d :=
  deposit_increases_reserves_d_nondecreasing poolBalanced 2000 userFresh
    poolBalancedAfterDeposit userAfterDeposit 0 2000 (by decide) (by decide)

/-- C4: every successful `withdraw(amount_lp)` with
`0 < amount_lp ≤ user.lp_amount` strictly decreases `d` and decreases
`total_lp_amount` and `reserves` by exactly `amount_lp`. -/
theorem withdraw_decreases_d_total_reserves :
    ∀ (p : Pool) (u : UserDeposit) (amount_lp : Nat) (p' : Pool)
      (u' : UserDeposit),
      0 < amount_lp → amount_lp ≤ u.lp_amount →
      p.withdraw u amount_lp = Except.ok (p', u') →
      p'.d < p.d ∧ p'.total_lp_amount + amount_lp = p.total_lp_amount ∧
        p'.reserves + amount_lp = p.reserves := by
  intro p u amount_lp p' u' _ _ h
  obtain ⟨h1, h2, h3, _⟩ := withdraw_ok_spec p u amount_lp p' u' h
  exact ⟨h1, h2, h3⟩

/-- Witness for the C4 theorem at a successful concrete withdraw. -/
theorem withdraw_decreases_d_total_reserves_witness :
    poolBalancedAfterWithdraw.d < poolBalanced.d ∧
      poolBalancedAfterWithdraw.total_lp_amount + 100000 =
        poolBalanced.total_lp_amount ∧
      poolBalancedAfterWithdraw.reserves + 100000 = poolBalanced.reserves :=
  withdraw_decreases_d_total_reserves poolBalanced userWhole 100000
    poolBalancedAfterWithdraw userAfterWithdraw (by decide) (by decide) (by decide)

/-- C5: `add_rewards` is a no-op on the pool state when
`total_lp_amount = 0` (the amount is discarded); otherwise a successful
call adds exactly `reward·admin_fee_share_bp/10000` to
`admin_fee_amount` and `((reward − admin cut) << 48)/total_lp_amount`
(the `u128` shift truncating modulo `2^128`) to `acc_reward_per_share_p`,
changing no other field. -/
theorem add_rewards_spec :
    ∀ (p : Pool) (reward_amount : Nat),
      (p.total_lp_amount = 0 → p.add_rewards reward_amount = Except.ok p) ∧
      (∀ p', 0 < p.total_lp_amount →
        p.add_rewards reward_amount = Except.ok p' →
        p' = { p with
                acc_reward_per_share_p := p.acc_reward_per_share_p +
                  ((reward_amount - reward_amount * p.admin_fee_share_bp / BP)
                      <<< P) % U128_MOD / p.total_lp_amount,
                admin_fee_amount := p.admin_fee_amount +
                  reward_amount * p.admin_fee_share_bp / BP }) := by
  intro p r
  constructor
  · intro h0
    simp [Pool.add_rewards, h0]
  · intro p' hpos h
    unfold Pool.add_rewards at h
    rw [if_pos hpos] at h
    obtain ⟨m, hm2, h⟩ := bind_ok h
    dsimp only at h
    obtain ⟨lpr, hlpr, h⟩ := bind_ok h
    obtain ⟨acc, hacc, h⟩ := bind_ok h
    obtain ⟨adm, hadm, h⟩ := bind_ok h
    injection h with h
    subst h
    have h1 := chkMul_ok hm2
    obtain ⟨h2, h2le⟩ := chkSub_ok hlpr
    have h3 := chkAdd_ok hacc
    have h4 := chkAdd_ok hadm
    subst h1 h2 h3 h4
    rfl

/-- Witness for the C5 theorem: the no-op branch on the empty pool and
the reward split on `poolSmallLp` (`total = 100`, admin share 20%). -/
theorem add_rewards_spec_witness :
    poolEmpty.add_rewards 7 = Except.ok poolEmpty ∧
    poolSmallLpAfter =
      { poolSmallLp with
          acc_reward_per_share_p := poolSmallLp.acc_reward_per_share_p +
            ((50 - 50 * poolSmallLp.admin_fee_share_bp / BP) <<< P) %
              U128_MOD / poolSmallLp.total_lp_amount,
          admin_fee_amount := poolSmallLp.admin_fee_amount +
            50 * poolSmallLp.admin_fee_share_bp / BP } :=
  ⟨(add_rewards_spec poolEmpty 7).1 (by decide),
    (add_rewards_spec poolSmallLp 50).2 poolSmallLpAfter (by decide) (by decide)⟩

/-- C6: the concrete curve-solver evaluations of the repository's
`check_d` unit test, at amplification `a = 20`. -/
theorem get_d_concrete_values :
    poolA20.get_d 0 0 = 0 ∧
    poolA20.get_d 100000 100000 = 200000 ∧
    poolA20.get_d 15819 189999 = 200000 ∧
    poolA20.get_d 295237 14763 = 295240 ∧
    poolA20.get_d 4777 4749 = 9526 :=
  ⟨by decide, by decide, by decide, by decide, by decide⟩

/-- C7: with floor `sqrt`/`cbrt` the computed `D` is not monotone in its
first argument: at `a = 20`, `get_d(16, 1) = 18` but `get_d(17, 1) = 16`,
so `x₁ = 17 ≥ 16 = x₂` yet `D(x₁, 1) < D(x₂, 1)`. -/
theorem get_d_not_monotone :
    poolA20.get_d 16 1 = 18 ∧ poolA20.get_d 17 1 = 16 :=
  ⟨by decide, by decide⟩

/-- C8: the precision round trip: converting to system precision and
back is the identity for `decimals ≤ 3` and discards exactly
`a mod 10^(decimals−3)` for `decimals > 3`. -/
theorem precision_round_trip :
    ∀ (a decimals : Nat),
      amount_from_system_precision
          (amount_to_system_precision a decimals) decimals =
        if 3 < decimals then a - a % 10 ^ (decimals - 3) else a := by
  intro a d
  unfold amount_to_system_precision amount_from_system_precision
  by_cases h : 3 < d
  · simp only [if_pos h]
    generalize 10 ^ (d - 3) = k
    have hdm : a = a / k * k + a % k := by
      rw [Nat.mul_comm]
      exact (Nat.div_add_mod a k).symm
    exact (Nat.sub_eq_of_eq_add hdm).symm
  · by_cases h2 : d < 3
    · have hk : 0 < 10 ^ (3 - d) := Nat.pos_pow_of_pos _ (by norm_num)
      simp only [if_neg h, if_pos h2]
      exact Nat.mul_div_cancel a hk
    · have hd3 : d = 3 := by omega
      simp [hd3]

/-- C9: `validate_balance_ratio` divides by `max(token_a_balance,
token_b_balance)` with no zero guard, so it panics (models as
`Err.abort`) whenever both balances are zero; in particular a first
deposit of `amount_sp = 1` into the empty pool, whose half-split assigns
`0` to each balance, panics instead of returning an error value. -/
theorem validate_balance_ratio_zero_balances :
    (∀ p : Pool, p.token_a_balance = 0 → p.token_b_balance = 0 →
      p.validate_balance_ratio = Except.error Err.abort) ∧
    poolEmpty.deposit 1 userFresh = Except.error Err.abort := by
  constructor
  · intro p h1 h2
    have hU : (0 : Nat) < U128_MOD := by decide
    simp [Pool.validate_balance_ratio, chkMul, chkDiv, h1, h2, ok_bind,
      err_bind, hU, BP]
  · decide

/-- Witness for the C9 theorem at the empty pool. -/
theorem validate_balance_ratio_zero_balances_witness :
    poolEmpty.validate_balance_ratio = Except.error Err.abort :=
  validate_balance_ratio_zero_balances.1 poolEmpty (by decide) (by decide)

/-- C10: the reward-debt law `reward_debt ≤ (lp_amount ·
acc_reward_per_share_p) >> 48` is preserved by `deposit_lp`,
`withdraw_lp`, `claim_rewards` and `add_rewards` (the accumulator only
ever grows, and each user interaction refreshes the debt to the current
snapshot), and under it the pending-reward subtraction of each operation
cannot underflow: whenever the `u128` products and totals fit, the
operations succeed and return exactly the snapshot-minus-debt pending
amount. -/
theorem reward_debt_invariant :
    ∀ (p : Pool) (u : UserDeposit), rewardInvariant p u →
      (∀ lp : Nat,
        u.lp_amount * p.acc_reward_per_share_p < U128_MOD →
        p.total_lp_amount + lp < U128_MOD →
        u.lp_amount + lp < U128_MOD →
        (u.lp_amount + lp) * p.acc_reward_per_share_p < U128_MOD →
        p.deposit_lp u lp = Except.ok
          ({ p with total_lp_amount := p.total_lp_amount + lp },
            { lp_amount := u.lp_amount + lp,
              reward_debt :=
                ((u.lp_amount + lp) * p.acc_reward_per_share_p) >>> P },
            (u.lp_amount * p.acc_reward_per_share_p) >>> P - u.reward_debt) ∧
        rewardInvariant { p with total_lp_amount := p.total_lp_amount + lp }
          { lp_amount := u.lp_amount + lp,
            reward_debt :=
              ((u.lp_amount + lp) * p.acc_reward_per_share_p) >>> P }) ∧
      (∀ lp : Nat, lp ≤ u.lp_amount → lp ≤ p.total_lp_amount →
        u.lp_amount * p.acc_reward_per_share_p < U128_MOD →
        p.withdraw_lp u lp = Except.ok
          ({ p with total_lp_amount := p.total_lp_amount - lp },
            { lp_amount := u.lp_amount - lp,
              reward_debt :=
                ((u.lp_amount - lp) * p.acc_reward_per_share_p) >>> P },
            (u.lp_amount * p.acc_reward_per_share_p) >>> P - u.reward_debt) ∧
        rewardInvariant { p with total_lp_amount := p.total_lp_amount - lp }
          { lp_amount := u.lp_amount - lp,
            reward_debt :=
              ((u.lp_amount - lp) * p.acc_reward_per_share_p) >>> P }) ∧
      (u.lp_amount * p.acc_reward_per_share_p < U128_MOD →
        p.claim_rewards u = Except.ok
          (if 0 < (u.lp_amount * p.acc_reward_per_share_p) >>> P - u.reward_debt
            then { lp_amount := u.lp_amount,
                   reward_debt :=
                     (u.lp_amount * p.acc_reward_per_share_p) >>> P }
            else u,
            (u.lp_amount * p.acc_reward_per_share_p) >>> P - u.reward_debt) ∧
        (∀ (u' : UserDeposit) (pend : Nat),
          p.claim_rewards u = Except.ok (u', pend) →
          rewardInvariant p u')) ∧
      (∀ (r : Nat) (p' : Pool), p.add_rewards r = Except.ok p' →
        rewardInvariant p' u) := by
  intro p u hinv
  refine ⟨?_, ?_, ?_, ?_⟩
  · intro lp h1 h2 h3 h4
    exact ⟨deposit_lp_char p u lp hinv h1 h2 h3 h4, Nat.le_refl _⟩
  · intro lp hle htot h1
    exact ⟨withdraw_lp_char p u lp hinv hle htot h1, Nat.le_refl _⟩
  · intro h1
    refine ⟨claim_rewards_char p u hinv h1, ?_⟩
    intro u' pend h'
    rw [claim_rewards_char p u hinv h1] at h'
    injection h' with h'
    obtain ⟨hu, hp⟩ := Prod.mk.injEq .. ▸ h'
    subst hu
    split
    · exact Nat.le_refl _
    · exact hinv
  · intro r p' h
    obtain ⟨hmono, _⟩ := add_rewards_frame p r p' h
    exact le_trans hinv (snapshot_mono hmono)

/-- Witness for the C10 theorem on `poolRewards`/`userRewards` (snapshot
`30`, debt `20`), exercising all four operations. -/
theorem reward_debt_invariant_witness :
    poolRewards.deposit_lp userRewards 5 =
      Except.ok (poolRewardsDep, userRewardsDep, 10) ∧
    poolRewards.withdraw_lp userRewards 4 =
      Except.ok (poolRewardsWdr, userRewardsWdr, 10) ∧
    poolRewards.claim_rewards userRewards =
      Except.ok (userRewardsClaimed, 10) ∧
    rewardInvariant poolRewardsAfter userRewards := by
  have h := reward_debt_invariant poolRewards userRewards (by decide)
  refine ⟨?_, ?_, ?_, ?_⟩
  · rw [(h.1 5 (by decide) (by decide) (by decide) (by decide)).1]
    decide
  · rw [(h.2.1 4 (by decide) (by decide) (by decide)).1]
    decide
  · rw [(h.2.2.1 (by decide)).1]
    decide
  · exact h.2.2.2 100 poolRewardsAfter (by decide)

end DexPool
